import Mathlib

/-!
Shallow embedding of `src/flex/layout/FlexLayout.mjs` (the flex layout
orchestrator of the Lightning repository).

The orchestrator is a stateful class; we embed it as explicit state passing:
every method becomes a function `St → St × List Ev`, where the `List Ev`
component is the trace of the externally visible layout actions the method
performed, in order.  Collaborator classes (`LineLayouter`, `ContentAligner`,
`ItemCoordinatesUpdater`, `FlexUtils`) are not part of the orchestrator source;
they are modelled abstractly from the specification as an environment of pure
functions (`Env`) and as trace events.
-/

namespace FlexLayout

/-- Events emitted by the orchestrator while laying out, in execution order.
`layoutLines s` records a `LineLayouter.layoutLines` call when the current
main-axis size was `s` (line membership is a function of that size);
`fitMain v` records `mainAxisSize` being set to the line content size `v`;
`alignInit t` records `ContentAligner.init` computing total cross size `t`;
`fitCross v` records `crossAxisSize` being set to the total cross size `v`;
`alignLines v` records `ContentAligner.align` running while the container's
cross-axis size was `v`; the remaining events record calls of
`resetDeferredLayout`, `_setInitialAxisSizes`, `ItemCoordinatesUpdater`
finalization, `item.resetNonFlexLayout` and `item.mustUpdateDeferred`. -/
inductive Ev where
  | layoutLines (availableMainSize : Int)
  | fitMain (newSize : Int)
  | alignInit (total : Int)
  | fitCross (newSize : Int)
  | alignLines (finalCrossSize : Int)
  | resetDeferred
  | setInitialSizes
  | finalizeCoords
  | resetNonFlexLayout
  | mustUpdateDeferred
  deriving DecidableEq, Repr

/-- An event belonging to main-axis layout (`_layoutMainAxis`):
line construction or the main-axis fit-to-content step. -/
def Ev.isMainAxisEvent : Ev → Bool
  | .layoutLines _ => true
  | .fitMain _ => true
  | _ => false

/-- An event belonging to cross-axis layout (`_layoutCrossAxis`):
aligner init, the cross-axis fit-to-content step, or aligner align. -/
def Ev.isCrossAxisEvent : Ev → Bool
  | .alignInit _ => true
  | .fitCross _ => true
  | .alignLines _ => true
  | _ => false

/-- Configuration of one flex container, constant during layout.  `wrap` is
`FlexContainer.wrap` (read by `isWrapping`), `horizontal` is
`FlexContainer._horizontal`, `hasFlexParent` is the truthiness of
`item.flexParent` read by `layoutTree`, and the two bases are the values of
`FlexUtils.getAxisSize(item, horizontal)` / `(item, not horizontal)` read by
`_getMainAxisBasis` / `_getCrossAxisBasis` (zero means unset / not fixed). -/
structure Config where
  wrap : Bool
  horizontal : Bool
  hasFlexParent : Bool
  mainAxisBasis : Int
  crossAxisBasis : Int
  deriving DecidableEq, Repr

/-- Modelled from the spec: the collaborator outputs consumed by the
orchestrator.  `LineLayouter.mjs` and `ContentAligner.mjs` are not part of the
orchestrator source; per the spec, the Line Builder's outputs
(`mainAxisContentSize`, `mainAxisMinSize`, `crossAxisMinSize`) and the Content
Aligner's `totalCrossAxisSize` are determined by the container's children and
wrap flag (both fixed here) together with the main-axis size current when
`layoutLines` ran, which fixes line membership; so each is a pure function of
that size. -/
structure Env where
  mainAxisContentSize : Int → Int
  mainAxisMinSize : Int → Int
  crossAxisMinSize : Int → Int
  totalCrossAxisSize : Int → Int

/-- Mutable state of one `FlexLayout` instance together with the layout fields
it owns on its item and line layouter.  `mainAxisSize` / `crossAxisSize` are
the resolved sizes read and written through `FlexUtils.getAxisLayoutSize` /
`setAxisLayoutSize`; `resizingMainAxis`, `resizingCrossAxis`,
`deferLayoutFlag` are the `_resizingMainAxis`, `_resizingCrossAxis`,
`_deferLayout` flags; `linesMainSize` is the main-axis size at the last
`_layoutLines` call (it determines line membership); `mainAxisContentSize`,
`mainAxisMinSize`, `crossAxisMinSize` cache the line layouter's outputs from
that call; `totalCrossAxisSize` is `_totalCrossAxisSize`. -/
structure St where
  mainAxisSize : Int
  crossAxisSize : Int
  resizingMainAxis : Bool
  resizingCrossAxis : Bool
  deferLayoutFlag : Bool
  linesMainSize : Int
  mainAxisContentSize : Int
  mainAxisMinSize : Int
  crossAxisMinSize : Int
  totalCrossAxisSize : Int
  deriving DecidableEq, Repr

/-- `isWrapping()`. -/
def isWrapping (c : Config) : Bool := c.wrap

/-- `_hasFixedMainAxisBasis()`: the main-axis basis is non-zero. -/
def hasFixedMainAxisBasis (c : Config) : Bool := c.mainAxisBasis != 0

/-- `_hasFixedCrossAxisBasis()`: the cross-axis basis is non-zero. -/
def hasFixedCrossAxisBasis (c : Config) : Bool := c.crossAxisBasis != 0

/-- `isMainAxisFitToContents()`. -/
def isMainAxisFitToContents (c : Config) : Bool :=
  !isWrapping c && !hasFixedMainAxisBasis c

/-- `isCrossAxisFitToContents()`. -/
def isCrossAxisFitToContents (c : Config) : Bool :=
  !hasFixedCrossAxisBasis c

/-- `_layoutLines()`: delegates to `LineLayouter.layoutLines`, which rebuilds
the lines from the current main-axis size and recomputes its content/min-size
outputs. -/
def layoutLines (env : Env) (s : St) : St × List Ev :=
  ({ s with
      linesMainSize := s.mainAxisSize
      mainAxisContentSize := env.mainAxisContentSize s.mainAxisSize
      mainAxisMinSize := env.mainAxisMinSize s.mainAxisSize
      crossAxisMinSize := env.crossAxisMinSize s.mainAxisSize },
   [Ev.layoutLines s.mainAxisSize])

/-- `_fitMainAxisSizeToContents()`. -/
def fitMainAxisSizeToContents (c : Config) (s : St) : St × List Ev :=
  if !s.resizingMainAxis then
    if isMainAxisFitToContents c then
      ({ s with mainAxisSize := s.mainAxisContentSize },
       [Ev.fitMain s.mainAxisContentSize])
    else (s, [])
  else (s, [])

/-- `_layoutMainAxis()`: line construction, then the main-axis
fit-to-content step. -/
def layoutMainAxis (env : Env) (c : Config) (s : St) : St × List Ev :=
  let r1 := layoutLines env s
  let r2 := fitMainAxisSizeToContents c r1.1
  (r2.1, r1.2 ++ r2.2)

/-- `_fitCrossAxisSizeToContents()`. -/
def fitCrossAxisSizeToContents (c : Config) (s : St) : St × List Ev :=
  if !s.resizingCrossAxis then
    if isCrossAxisFitToContents c then
      ({ s with crossAxisSize := s.totalCrossAxisSize },
       [Ev.fitCross s.totalCrossAxisSize])
    else (s, [])
  else (s, [])

/-- `_layoutCrossAxis()`: `aligner.init()` computes the total cross-axis size
of the current lines and stores it in `_totalCrossAxisSize`, then the
cross-axis fit-to-content step runs, then `aligner.align()` positions the
lines using the now-current cross-axis size. -/
def layoutCrossAxis (env : Env) (c : Config) (s : St) : St × List Ev :=
  let total := env.totalCrossAxisSize s.linesMainSize
  let s1 : St := { s with totalCrossAxisSize := total }
  let r2 := fitCrossAxisSizeToContents c s1
  (r2.1, Ev.alignInit total :: (r2.2 ++ [Ev.alignLines r2.1.crossAxisSize]))

/-- `_layoutAxes()`: main-axis layout, then cross-axis layout. -/
def layoutAxes (env : Env) (c : Config) (s : St) : St × List Ev :=
  let r1 := layoutMainAxis env c s
  let r2 := layoutCrossAxis env c r1.1
  (r2.1, r1.2 ++ r2.2)

/-- `_setInitialAxisSizes()`: axis sizes from the configured bases, resizing
flags cleared. -/
def setInitialAxisSizes (c : Config) (s : St) : St × List Ev :=
  ({ s with
      mainAxisSize := c.mainAxisBasis
      crossAxisSize := c.crossAxisBasis
      resizingMainAxis := false
      resizingCrossAxis := false },
   [Ev.setInitialSizes])

/-- `resetDeferredLayout()`. -/
def resetDeferredLayout (s : St) : St × List Ev :=
  ({ s with deferLayoutFlag := false }, [Ev.resetDeferred])

/-- `updateTreeLayout()`. -/
def updateTreeLayout (env : Env) (c : Config) (s : St) : St × List Ev :=
  let r1 := resetDeferredLayout s
  let r2 := setInitialAxisSizes c r1.1
  let r3 := layoutAxes env c r2.1
  (r3.1, r1.2 ++ r2.2 ++ r3.2)

/-- `_updateTreeLayoutWithCurrentAxes()`: like `updateTreeLayout` but keeps
the current axis sizes instead of re-deriving them from the bases. -/
def updateTreeLayoutWithCurrentAxes (env : Env) (c : Config) (s : St) :
    St × List Ev :=
  let r1 := resetDeferredLayout s
  let r2 := layoutAxes env c r1.1
  (r2.1, r1.2 ++ r2.2)

/-- `updateItemCoords()`: the coordinate-finalization pass
(`ItemCoordinatesUpdater.finalize`), external to the state modelled here. -/
def updateItemCoords (s : St) : St × List Ev :=
  (s, [Ev.finalizeCoords])

/-- `layoutTree()`. -/
def layoutTree (env : Env) (c : Config) (s : St) : St × List Ev :=
  let r1 :=
    if c.hasFlexParent then updateTreeLayoutWithCurrentAxes env c s
    else updateTreeLayout env c s
  let r2 := updateItemCoords r1.1
  (r2.1, r1.2 ++ r2.2)

/-- `deferLayout()`. -/
def deferLayout (s : St) : St × List Ev :=
  ({ s with deferLayoutFlag := true },
   [Ev.resetNonFlexLayout, Ev.mustUpdateDeferred])

/-- `isLayoutDeferred()`. -/
def isLayoutDeferred (s : St) : Bool := s.deferLayoutFlag

/-- `_getMainAxisMinSize()`: forces a tree layout when deferred, then reads
the line layouter's `mainAxisMinSize`.  Returns the value with the resulting
state and trace. -/
def getMainAxisMinSize (env : Env) (c : Config) (s : St) :
    Int × St × List Ev :=
  if isLayoutDeferred s then
    let r := updateTreeLayout env c s
    (r.1.mainAxisMinSize, r.1, r.2)
  else
    (s.mainAxisMinSize, s, [])

/-- `_getCrossAxisMinSize()`. -/
def getCrossAxisMinSize (env : Env) (c : Config) (s : St) :
    Int × St × List Ev :=
  if isLayoutDeferred s then
    let r := updateTreeLayout env c s
    (r.1.crossAxisMinSize, r.1, r.2)
  else
    (s.crossAxisMinSize, s, [])

/-- `getAxisMinSize(horizontal)`. -/
def getAxisMinSize (env : Env) (c : Config) (horizontal : Bool) (s : St) :
    Int × St × List Ev :=
  if c.horizontal == horizontal then getMainAxisMinSize env c s
  else getCrossAxisMinSize env c s

/-- `resizeMainAxis(size)`. -/
def resizeMainAxis (env : Env) (c : Config) (size : Int) (s : St) :
    St × List Ev :=
  let s1 : St := { s with resizingMainAxis := true }
  let r2 :=
    if s1.mainAxisSize ≠ size then
      layoutAxes env c { s1 with mainAxisSize := size }
    else (s1, [])
  ({ r2.1 with resizingMainAxis := false }, r2.2)

/-- `resizeCrossAxis(size)`. -/
def resizeCrossAxis (env : Env) (c : Config) (size : Int) (s : St) :
    St × List Ev :=
  let s1 : St := { s with resizingCrossAxis := true }
  let r2 :=
    if s1.crossAxisSize ≠ size then
      layoutCrossAxis env c { s1 with crossAxisSize := size }
    else (s1, [])
  ({ r2.1 with resizingCrossAxis := false }, r2.2)

/-! ### Frame lemmas: which state fields each step can touch -/

theorem fitMainAxisSizeToContents_preserves (c : Config) (s : St) :
    (fitMainAxisSizeToContents c s).1.crossAxisSize = s.crossAxisSize ∧
    (fitMainAxisSizeToContents c s).1.resizingMainAxis = s.resizingMainAxis ∧
    (fitMainAxisSizeToContents c s).1.resizingCrossAxis = s.resizingCrossAxis ∧
    (fitMainAxisSizeToContents c s).1.deferLayoutFlag = s.deferLayoutFlag ∧
    (fitMainAxisSizeToContents c s).1.linesMainSize = s.linesMainSize ∧
    (fitMainAxisSizeToContents c s).1.mainAxisContentSize
      = s.mainAxisContentSize ∧
    (fitMainAxisSizeToContents c s).1.mainAxisMinSize = s.mainAxisMinSize ∧
    (fitMainAxisSizeToContents c s).1.crossAxisMinSize = s.crossAxisMinSize ∧
    (fitMainAxisSizeToContents c s).1.totalCrossAxisSize
      = s.totalCrossAxisSize := by
  simp only [fitMainAxisSizeToContents]
  split_ifs <;> simp

theorem layoutCrossAxis_preserves (env : Env) (c : Config) (s : St) :
    (layoutCrossAxis env c s).1.mainAxisSize = s.mainAxisSize ∧
    (layoutCrossAxis env c s).1.resizingMainAxis = s.resizingMainAxis ∧
    (layoutCrossAxis env c s).1.resizingCrossAxis = s.resizingCrossAxis ∧
    (layoutCrossAxis env c s).1.deferLayoutFlag = s.deferLayoutFlag ∧
    (layoutCrossAxis env c s).1.linesMainSize = s.linesMainSize ∧
    (layoutCrossAxis env c s).1.mainAxisContentSize = s.mainAxisContentSize ∧
    (layoutCrossAxis env c s).1.mainAxisMinSize = s.mainAxisMinSize ∧
    (layoutCrossAxis env c s).1.crossAxisMinSize = s.crossAxisMinSize := by
  simp only [layoutCrossAxis, fitCrossAxisSizeToContents]
  split_ifs <;> simp

theorem layoutMainAxis_fst_fields (env : Env) (c : Config) (s : St) :
    (layoutMainAxis env c s).1.crossAxisSize = s.crossAxisSize ∧
    (layoutMainAxis env c s).1.resizingMainAxis = s.resizingMainAxis ∧
    (layoutMainAxis env c s).1.resizingCrossAxis = s.resizingCrossAxis ∧
    (layoutMainAxis env c s).1.deferLayoutFlag = s.deferLayoutFlag ∧
    (layoutMainAxis env c s).1.linesMainSize = s.mainAxisSize ∧
    (layoutMainAxis env c s).1.mainAxisContentSize
      = env.mainAxisContentSize s.mainAxisSize ∧
    (layoutMainAxis env c s).1.mainAxisMinSize
      = env.mainAxisMinSize s.mainAxisSize ∧
    (layoutMainAxis env c s).1.crossAxisMinSize
      = env.crossAxisMinSize s.mainAxisSize ∧
    (layoutMainAxis env c s).1.totalCrossAxisSize = s.totalCrossAxisSize := by
  simp only [layoutMainAxis, layoutLines, fitMainAxisSizeToContents]
  split_ifs <;> simp

theorem layoutMainAxis_main_of_resizing (env : Env) (c : Config) (s : St)
    (h : s.resizingMainAxis = true) :
    (layoutMainAxis env c s).1.mainAxisSize = s.mainAxisSize := by
  simp [layoutMainAxis, layoutLines, fitMainAxisSizeToContents, h]

theorem layoutMainAxis_main_of_fixed (env : Env) (c : Config) (s : St)
    (h : isMainAxisFitToContents c = false) :
    (layoutMainAxis env c s).1.mainAxisSize = s.mainAxisSize := by
  simp only [layoutMainAxis, layoutLines, fitMainAxisSizeToContents]
  split_ifs with h1 h2 <;> simp_all

theorem layoutCrossAxis_cross_of_resizing (env : Env) (c : Config) (s : St)
    (h : s.resizingCrossAxis = true) :
    (layoutCrossAxis env c s).1.crossAxisSize = s.crossAxisSize := by
  simp [layoutCrossAxis, fitCrossAxisSizeToContents, h]

theorem layoutCrossAxis_cross_of_fixed (env : Env) (c : Config) (s : St)
    (h : isCrossAxisFitToContents c = false) :
    (layoutCrossAxis env c s).1.crossAxisSize = s.crossAxisSize := by
  simp only [layoutCrossAxis, fitCrossAxisSizeToContents]
  split_ifs with h1 h2 <;> simp_all

theorem layoutAxes_flags (env : Env) (c : Config) (s : St) :
    (layoutAxes env c s).1.resizingMainAxis = s.resizingMainAxis ∧
    (layoutAxes env c s).1.resizingCrossAxis = s.resizingCrossAxis ∧
    (layoutAxes env c s).1.deferLayoutFlag = s.deferLayoutFlag := by
  simp only [layoutAxes]
  have h1 := layoutMainAxis_fst_fields env c s
  have h2 := layoutCrossAxis_preserves env c (layoutMainAxis env c s).1
  exact ⟨by rw [h2.2.1, h1.2.1], by rw [h2.2.2.1, h1.2.2.1],
    by rw [h2.2.2.2.1, h1.2.2.2.1]⟩

theorem layoutAxes_main_of_resizing (env : Env) (c : Config) (s : St)
    (h : s.resizingMainAxis = true) :
    (layoutAxes env c s).1.mainAxisSize = s.mainAxisSize := by
  simp only [layoutAxes]
  rw [(layoutCrossAxis_preserves env c _).1,
    layoutMainAxis_main_of_resizing env c s h]

theorem layoutAxes_main_of_fixed (env : Env) (c : Config) (s : St)
    (h : isMainAxisFitToContents c = false) :
    (layoutAxes env c s).1.mainAxisSize = s.mainAxisSize := by
  simp only [layoutAxes]
  rw [(layoutCrossAxis_preserves env c _).1,
    layoutMainAxis_main_of_fixed env c s h]

theorem updateTreeLayout_deferFlag (env : Env) (c : Config) (s : St) :
    (updateTreeLayout env c s).1.deferLayoutFlag = false := by
  simp only [updateTreeLayout, resetDeferredLayout, setInitialAxisSizes]
  rw [(layoutAxes_flags env c _).2.2]

theorem layoutMainAxis_trace_allMain (env : Env) (c : Config) (s : St) :
    ∀ e ∈ (layoutMainAxis env c s).2, e.isMainAxisEvent = true := by
  simp only [layoutMainAxis, layoutLines, fitMainAxisSizeToContents]
  split_ifs <;> simp [Ev.isMainAxisEvent]

theorem layoutMainAxis_trace_head (env : Env) (c : Config) (s : St) :
    (layoutMainAxis env c s).2.head? = some (Ev.layoutLines s.mainAxisSize) := by
  simp only [layoutMainAxis, layoutLines, fitMainAxisSizeToContents]
  split_ifs <;> simp

theorem layoutCrossAxis_trace_allCross (env : Env) (c : Config) (s : St) :
    ∀ e ∈ (layoutCrossAxis env c s).2, e.isCrossAxisEvent = true := by
  simp only [layoutCrossAxis, fitCrossAxisSizeToContents]
  split_ifs <;> simp [Ev.isCrossAxisEvent]

theorem layoutCrossAxis_trace_head (env : Env) (c : Config) (s : St) :
    (layoutCrossAxis env c s).2.head?
      = some (Ev.alignInit (env.totalCrossAxisSize s.linesMainSize)) := by
  simp only [layoutCrossAxis, fitCrossAxisSizeToContents]
  split_ifs <;> simp

theorem mainAxisEvent_not_crossAxisEvent (e : Ev)
    (h : e.isMainAxisEvent = true) : e.isCrossAxisEvent = false := by
  cases e <;> simp_all [Ev.isMainAxisEvent, Ev.isCrossAxisEvent]

theorem crossAxisEvent_not_mainAxisEvent (e : Ev)
    (h : e.isCrossAxisEvent = true) : e.isMainAxisEvent = false := by
  cases e <;> simp_all [Ev.isMainAxisEvent, Ev.isCrossAxisEvent]

theorem layoutAxes_trace_split (env : Env) (c : Config) (s : St) :
    (layoutAxes env c s).2
      = (layoutMainAxis env c s).2
        ++ (layoutCrossAxis env c (layoutMainAxis env c s).1).2 := rfl

theorem layoutMainAxis_trace_cons (env : Env) (c : Config) (s : St) :
    ∃ tl, (layoutMainAxis env c s).2 = Ev.layoutLines s.mainAxisSize :: tl := by
  simp only [layoutMainAxis, layoutLines, fitMainAxisSizeToContents]
  split_ifs <;> exact ⟨_, rfl⟩

theorem layoutCrossAxis_trace_cons (env : Env) (c : Config) (s : St) :
    ∃ tl, (layoutCrossAxis env c s).2
      = Ev.alignInit (env.totalCrossAxisSize s.linesMainSize) :: tl := by
  simp only [layoutCrossAxis, fitCrossAxisSizeToContents]
  split_ifs <;> exact ⟨_, rfl⟩

theorem resizeMainAxis_sets_main (env : Env) (c : Config) (size : Int)
    (s : St) : (resizeMainAxis env c size s).1.mainAxisSize = size := by
  simp only [resizeMainAxis]
  split_ifs with h
  · exact layoutAxes_main_of_resizing env c _ rfl
  · simpa using not_ne_iff.mp h

theorem resizeMainAxis_clears_flag (env : Env) (c : Config) (size : Int)
    (s : St) : (resizeMainAxis env c size s).1.resizingMainAxis = false := rfl

theorem resizeCrossAxis_sets_cross (env : Env) (c : Config) (size : Int)
    (s : St) : (resizeCrossAxis env c size s).1.crossAxisSize = size := by
  simp only [resizeCrossAxis]
  split_ifs with h
  · exact layoutCrossAxis_cross_of_resizing env c _ rfl
  · simpa using not_ne_iff.mp h

theorem resizeCrossAxis_clears_flag (env : Env) (c : Config) (size : Int)
    (s : St) : (resizeCrossAxis env c size s).1.resizingCrossAxis = false := rfl

theorem set_resizingMainAxis_false_eq (x : St)
    (h : x.resizingMainAxis = false) :
    { x with resizingMainAxis := false } = x := by
  cases x with
  | mk a b r1 r2 d l m1 m2 m3 t => simp_all

theorem set_resizingCrossAxis_false_eq (x : St)
    (h : x.resizingCrossAxis = false) :
    { x with resizingCrossAxis := false } = x := by
  cases x with
  | mk a b r1 r2 d l m1 m2 m3 t => simp_all

/-! ### Concrete instances used to evaluate the model -/

/-- A concrete collaborator environment with constant, non-negative
outputs. -/
def env0 : Env :=
  { mainAxisContentSize := fun _ => 3
    mainAxisMinSize := fun _ => 1
    crossAxisMinSize := fun _ => 2
    totalCrossAxisSize := fun _ => 4 }

/-- A concrete non-wrapping row container configuration with no fixed basis
and no flex parent. -/
def c0 : Config :=
  { wrap := false, horizontal := true, hasFlexParent := false
    mainAxisBasis := 0, crossAxisBasis := 0 }

/-- The all-zero initial layout state. -/
def st0 : St :=
  { mainAxisSize := 0, crossAxisSize := 0
    resizingMainAxis := false, resizingCrossAxis := false
    deferLayoutFlag := false, linesMainSize := 0
    mainAxisContentSize := 0, mainAxisMinSize := 0, crossAxisMinSize := 0
    totalCrossAxisSize := 0 }

/-! ### Claim theorems -/

/-- Claim C1: main-axis fit-to-content guard.  After line layout
(`_layoutMainAxis` = `_layoutLines` then `_fitMainAxisSizeToContents`), the
container's main-axis size equals the lines' main-axis content size exactly
when the container is not in `Resizing(main)` state, does not wrap, and its
main-axis basis is zero; in every other case the main-axis size is left as it
was.  Moreover `isMainAxisFitToContents` is exactly the conjunction
"not wrapping and basis zero". -/
theorem mainAxis_fitToContents_guard (env : Env) (c : Config) (s : St) :
    ((layoutMainAxis env c s).1.mainAxisSize =
      if !s.resizingMainAxis && (!c.wrap && c.mainAxisBasis == 0) then
        env.mainAxisContentSize s.mainAxisSize
      else s.mainAxisSize) ∧
    isMainAxisFitToContents c = (!c.wrap && c.mainAxisBasis == 0) := by
  have hfit : isMainAxisFitToContents c = (!c.wrap && c.mainAxisBasis == 0) := by
    simp [isMainAxisFitToContents, isWrapping, hasFixedMainAxisBasis, bne]
  refine ⟨?_, hfit⟩
  simp only [layoutMainAxis, layoutLines, fitMainAxisSizeToContents, hfit]
  cases hr : s.resizingMainAxis <;>
    cases hw : c.wrap <;>
      cases hb : c.mainAxisBasis == 0 <;>
        simp [hr, hw, hb]

/-- Claim C2: cross-axis fit-to-content guard.  During `_layoutCrossAxis`,
the container's cross-axis size is set to the aligner's total cross-axis
content size exactly when the container is not in `Resizing(cross)` state and
its cross-axis basis is zero — with no wrap condition
(`isCrossAxisFitToContents` ignores `wrap`, unlike the main axis) — and the
aligner's positional `align` step is the last action of the pass, running with
the final cross-axis size. -/
theorem crossAxis_fitToContents_guard (env : Env) (c : Config) (s : St) :
    ((layoutCrossAxis env c s).1.crossAxisSize =
      if !s.resizingCrossAxis && c.crossAxisBasis == 0 then
        env.totalCrossAxisSize s.linesMainSize
      else s.crossAxisSize) ∧
    isCrossAxisFitToContents c = (c.crossAxisBasis == 0) ∧
    (layoutCrossAxis env c s).2.getLast?
      = some (Ev.alignLines ((layoutCrossAxis env c s).1.crossAxisSize)) := by
  have hfit : isCrossAxisFitToContents c = (c.crossAxisBasis == 0) := by
    simp [isCrossAxisFitToContents, hasFixedCrossAxisBasis, bne]
  refine ⟨?_, hfit, ?_⟩ <;>
    simp only [layoutCrossAxis, fitCrossAxisSizeToContents, hfit] <;>
      cases hr : s.resizingCrossAxis <;>
        cases hb : c.crossAxisBasis == 0 <;>
          simp [hr, hb]

/-- Claim C3: resize scope.  A `resizeMainAxis` call with a size different
from the current resolved main-axis size re-runs both main-axis layout (a
line-construction event occurs) and cross-axis layout (a cross-axis event
occurs), while a `resizeCrossAxis` call with a size different from the
current resolved cross-axis size re-runs only cross-axis layout: its trace
contains cross-axis events but no main-axis event (neither line construction
nor main-axis fitting). -/
theorem resize_scope (env : Env) (c : Config) (szM szC : Int) (s t : St)
    (hm : s.mainAxisSize ≠ szM) (hc : t.crossAxisSize ≠ szC) :
    (resizeMainAxis env c szM s).2.any Ev.isMainAxisEvent = true ∧
    (resizeMainAxis env c szM s).2.any Ev.isCrossAxisEvent = true ∧
    (resizeCrossAxis env c szC t).2.any Ev.isCrossAxisEvent = true ∧
    (resizeCrossAxis env c szC t).2.any Ev.isMainAxisEvent = false := by
  have hmTr : (resizeMainAxis env c szM s).2
      = (layoutAxes env c
          { s with resizingMainAxis := true, mainAxisSize := szM }).2 := by
    simp [resizeMainAxis, hm]
  have hcTr : (resizeCrossAxis env c szC t).2
      = (layoutCrossAxis env c
          { t with resizingCrossAxis := true, crossAxisSize := szC }).2 := by
    simp [resizeCrossAxis, hc]
  refine ⟨?_, ?_, ?_, ?_⟩
  · rw [hmTr, layoutAxes_trace_split]
    obtain ⟨tl, htl⟩ := layoutMainAxis_trace_cons env c
      { s with resizingMainAxis := true, mainAxisSize := szM }
    rw [htl]
    simp [Ev.isMainAxisEvent]
  · rw [hmTr, layoutAxes_trace_split]
    obtain ⟨tl, htl⟩ := layoutCrossAxis_trace_cons env c
      (layoutMainAxis env c
        { s with resizingMainAxis := true, mainAxisSize := szM }).1
    rw [htl]
    simp [Ev.isCrossAxisEvent]
  · rw [hcTr]
    obtain ⟨tl, htl⟩ := layoutCrossAxis_trace_cons env c
      { t with resizingCrossAxis := true, crossAxisSize := szC }
    rw [htl]
    simp [Ev.isCrossAxisEvent]
  · rw [hcTr]
    rw [List.any_eq_false]
    intro e he
    simp only [Bool.not_eq_true]
    exact crossAxisEvent_not_mainAxisEvent e
      (layoutCrossAxis_trace_allCross env c _ e he)

/-- Witness for C3 at a concrete input. -/
theorem resize_scope_witness :
    (st0.mainAxisSize ≠ 5 ∧ st0.crossAxisSize ≠ 7) ∧
    ((resizeMainAxis env0 c0 5 st0).2.any Ev.isMainAxisEvent = true ∧
     (resizeMainAxis env0 c0 5 st0).2.any Ev.isCrossAxisEvent = true ∧
     (resizeCrossAxis env0 c0 7 st0).2.any Ev.isCrossAxisEvent = true ∧
     (resizeCrossAxis env0 c0 7 st0).2.any Ev.isMainAxisEvent = false) :=
  ⟨by decide, resize_scope env0 c0 5 7 st0 st0 (by decide) (by decide)⟩

/-- Claim C4: resize idempotence.  Resizing an axis to its current resolved
size performs no relayout: the trace is empty and the state is unchanged
except that the resizing flag (set on entry) is cleared on exit.
Consequently a second resize call with the same value is a complete no-op on
the resolved state and triggers no layout work, so two equal-valued calls do
layout at most once (in the first call). -/
theorem resize_idempotent (env : Env) (c : Config) (size : Int) (s : St) :
    (s.mainAxisSize = size →
      resizeMainAxis env c size s
        = ({ s with resizingMainAxis := false }, [])) ∧
    (s.crossAxisSize = size →
      resizeCrossAxis env c size s
        = ({ s with resizingCrossAxis := false }, [])) ∧
    resizeMainAxis env c size (resizeMainAxis env c size s).1
      = ((resizeMainAxis env c size s).1, []) ∧
    resizeCrossAxis env c size (resizeCrossAxis env c size s).1
      = ((resizeCrossAxis env c size s).1, []) := by
  have main_eq : ∀ x : St, x.mainAxisSize = size →
      resizeMainAxis env c size x
        = ({ x with resizingMainAxis := false }, []) := by
    intro x hx
    simp [resizeMainAxis, hx]
  have cross_eq : ∀ x : St, x.crossAxisSize = size →
      resizeCrossAxis env c size x
        = ({ x with resizingCrossAxis := false }, []) := by
    intro x hx
    simp [resizeCrossAxis, hx]
  refine ⟨main_eq s, cross_eq s, ?_, ?_⟩
  · rw [main_eq (resizeMainAxis env c size s).1
      (resizeMainAxis_sets_main env c size s),
      set_resizingMainAxis_false_eq _ (resizeMainAxis_clears_flag env c size s)]
  · rw [cross_eq (resizeCrossAxis env c size s).1
      (resizeCrossAxis_sets_cross env c size s),
      set_resizingCrossAxis_false_eq _
        (resizeCrossAxis_clears_flag env c size s)]

/-- Witness for C4 at a concrete input. -/
theorem resize_idempotent_witness :
    (st0.mainAxisSize = 0 ∧ st0.crossAxisSize = 0) ∧
    (resizeMainAxis env0 c0 0 st0
        = ({ st0 with resizingMainAxis := false }, []) ∧
     resizeCrossAxis env0 c0 0 st0
        = ({ st0 with resizingCrossAxis := false }, []) ∧
     resizeMainAxis env0 c0 0 (resizeMainAxis env0 c0 0 st0).1
        = ((resizeMainAxis env0 c0 0 st0).1, []) ∧
     resizeCrossAxis env0 c0 0 (resizeCrossAxis env0 c0 0 st0).1
        = ((resizeCrossAxis env0 c0 0 st0).1, [])) :=
  ⟨by decide,
   (resize_idempotent env0 c0 0 st0).1 rfl,
   (resize_idempotent env0 c0 0 st0).2.1 rfl,
   (resize_idempotent env0 c0 0 st0).2.2.1,
   (resize_idempotent env0 c0 0 st0).2.2.2⟩

/-- Claim C5: `layoutTree` dispatch.  `layoutTree` re-resolves with the
current axis sizes (`_updateTreeLayoutWithCurrentAxes`) exactly when the node
has a flex parent, and otherwise performs a full `updateTreeLayout` from the
configured bases; a flex-parented call never re-derives the axis sizes from
the bases (no `setInitialSizes` event), a parentless call does, and in both
cases the last action is the coordinate-finalization pass. -/
theorem layoutTree_dispatch (env : Env) (c : Config) (s : St) :
    (layoutTree env c s
      = if c.hasFlexParent then
          ((updateTreeLayoutWithCurrentAxes env c s).1,
           (updateTreeLayoutWithCurrentAxes env c s).2 ++ [Ev.finalizeCoords])
        else
          ((updateTreeLayout env c s).1,
           (updateTreeLayout env c s).2 ++ [Ev.finalizeCoords])) ∧
    (c.hasFlexParent = true →
      Ev.setInitialSizes ∉ (layoutTree env c s).2) ∧
    (c.hasFlexParent = false →
      Ev.setInitialSizes ∈ (layoutTree env c s).2) ∧
    (layoutTree env c s).2.getLast? = some Ev.finalizeCoords := by
  refine ⟨?_, ?_, ?_, ?_⟩
  · cases hp : c.hasFlexParent <;> simp [layoutTree, updateItemCoords, hp]
  · intro hp hmem
    simp only [layoutTree, hp, if_pos, updateItemCoords,
      updateTreeLayoutWithCurrentAxes, resetDeferredLayout,
      layoutAxes_trace_split, List.mem_append, List.mem_cons,
      List.mem_singleton] at hmem
    rcases hmem with (h1 | (h2 | h3)) | h4
    · simp at h1
    · have := layoutMainAxis_trace_allMain env c _ _ h2
      simp [Ev.isMainAxisEvent] at this
    · have := layoutCrossAxis_trace_allCross env c _ _ h3
      simp [Ev.isCrossAxisEvent] at this
    · simp at h4
  · intro hp
    simp [layoutTree, hp, updateItemCoords, updateTreeLayout,
      resetDeferredLayout, setInitialAxisSizes]
  · cases hp : c.hasFlexParent <;>
      simp [layoutTree, updateItemCoords, hp, List.getLast?_concat]

/-- Witness for C5 at a concrete input (a container without flex parent). -/
theorem layoutTree_dispatch_witness :
    c0.hasFlexParent = false ∧
    Ev.setInitialSizes ∈ (layoutTree env0 c0 st0).2 ∧
    (layoutTree env0 c0 st0).2.getLast? = some Ev.finalizeCoords :=
  ⟨rfl, (layoutTree_dispatch env0 c0 st0).2.2.1 rfl,
   (layoutTree_dispatch env0 c0 st0).2.2.2⟩

/-- Claim C6: `updateTreeLayout` step order.  The pass first clears the
deferred flag, then sets both axis sizes from the configured bases, then runs
main-axis layout, and runs cross-axis layout strictly after: the trace
decomposes as the reset event, the initial-sizing event, a non-empty block of
main-axis events (starting with line construction at the configured main-axis
basis), and then a non-empty block of cross-axis events — so no cross-axis
action ever precedes, or happens without, completed main-axis layout. -/
theorem updateTreeLayout_order (env : Env) (c : Config) (s : St) :
    ((setInitialAxisSizes c (resetDeferredLayout s).1).1.mainAxisSize
        = c.mainAxisBasis ∧
     (setInitialAxisSizes c (resetDeferredLayout s).1).1.crossAxisSize
        = c.crossAxisBasis) ∧
    (updateTreeLayout env c s).1.deferLayoutFlag = false ∧
    ∃ em ec, (updateTreeLayout env c s).2
        = Ev.resetDeferred :: Ev.setInitialSizes :: (em ++ ec) ∧
      (∀ e ∈ em, e.isMainAxisEvent = true) ∧
      (∀ e ∈ ec, e.isCrossAxisEvent = true) ∧
      em.head? = some (Ev.layoutLines c.mainAxisBasis) ∧
      em ≠ [] ∧ ec ≠ [] := by
  refine ⟨⟨rfl, rfl⟩, updateTreeLayout_deferFlag env c s, ?_⟩
  refine ⟨(layoutMainAxis env c
      (setInitialAxisSizes c (resetDeferredLayout s).1).1).2,
    (layoutCrossAxis env c (layoutMainAxis env c
      (setInitialAxisSizes c (resetDeferredLayout s).1).1).1).2,
    ?_, layoutMainAxis_trace_allMain env c _,
    layoutCrossAxis_trace_allCross env c _, ?_, ?_, ?_⟩
  · simp [updateTreeLayout, resetDeferredLayout, setInitialAxisSizes,
      layoutAxes_trace_split]
  · obtain ⟨tl, htl⟩ := layoutMainAxis_trace_cons env c
      (setInitialAxisSizes c (resetDeferredLayout s).1).1
    rw [htl]
    rfl
  · obtain ⟨tl, htl⟩ := layoutMainAxis_trace_cons env c
      (setInitialAxisSizes c (resetDeferredLayout s).1).1
    simp [htl]
  · obtain ⟨tl, htl⟩ := layoutCrossAxis_trace_cons env c
      (layoutMainAxis env c
        (setInitialAxisSizes c (resetDeferredLayout s).1).1).1
    simp [htl]

/-- Claim C7: deferred min-size equivalence.  On a deferred container,
`getAxisMinSize` (either axis) first runs one full `updateTreeLayout` (its
resulting state and trace are exactly those of `updateTreeLayout`) and the
value it returns equals the value obtained by calling `updateTreeLayout`
directly and then querying the minimum size on the resulting (non-deferred)
state: deferral changes only when the answer is computed, never the answer. -/
theorem deferred_minSize_equiv (env : Env) (c : Config) (hor : Bool) (s : St)
    (h : s.deferLayoutFlag = true) :
    (getAxisMinSize env c hor s).1
      = (getAxisMinSize env c hor (updateTreeLayout env c s).1).1 ∧
    (getAxisMinSize env c hor s).2.1 = (updateTreeLayout env c s).1 ∧
    (getAxisMinSize env c hor s).2.2 = (updateTreeLayout env c s).2 := by
  cases hh : c.horizontal == hor <;>
    simp [getAxisMinSize, getMainAxisMinSize, getCrossAxisMinSize,
      isLayoutDeferred, h, hh, updateTreeLayout_deferFlag]

/-- Witness for C7 at a concrete deferred input. -/
theorem deferred_minSize_equiv_witness :
    (deferLayout st0).1.deferLayoutFlag = true ∧
    ((getAxisMinSize env0 c0 true (deferLayout st0).1).1
        = (getAxisMinSize env0 c0 true
            (updateTreeLayout env0 c0 (deferLayout st0).1).1).1 ∧
     (getAxisMinSize env0 c0 true (deferLayout st0).1).2.1
        = (updateTreeLayout env0 c0 (deferLayout st0).1).1 ∧
     (getAxisMinSize env0 c0 true (deferLayout st0).1).2.2
        = (updateTreeLayout env0 c0 (deferLayout st0).1).2) :=
  ⟨rfl, deferred_minSize_equiv env0 c0 true (deferLayout st0).1 rfl⟩

theorem layoutAxes_cross_of_fixed (env : Env) (c : Config) (s : St)
    (h : isCrossAxisFitToContents c = false) :
    (layoutAxes env c s).1.crossAxisSize = s.crossAxisSize := by
  simp only [layoutAxes]
  rw [layoutCrossAxis_cross_of_fixed env c _ h,
    (layoutMainAxis_fst_fields env c s).1]

/-- A row container with a fixed main-axis basis of 5, a flex parent, and no
fixed cross-axis basis. -/
def cFix : Config :=
  { wrap := false, horizontal := true, hasFlexParent := true
    mainAxisBasis := 5, crossAxisBasis := 0 }

/-- A state whose current (parent-imposed) main-axis size is 7, differing
from `cFix`'s basis of 5. -/
def sFix : St := { st0 with mainAxisSize := 7 }

/-- Claim C8 counterexample: a node with fixed main-axis basis 5 whose
parent imposed main-axis size 7.  `layoutTree` (a non-resize layout call)
keeps the imposed size 7, so the resolved main-axis size does not equal the
basis: the claim fails for `layoutTree` on a flex-parented node. -/
theorem fixedBasis_layoutTree_counterexample :
    hasFixedMainAxisBasis cFix = true ∧
    (layoutTree env0 cFix sFix).1.mainAxisSize ≠ cFix.mainAxisBasis := by
  decide

/-- Claim C8 (amended): fixed basis stability.  For an axis with non-zero
basis: `updateTreeLayout` — and `layoutTree` on a node without a flex
parent — resolves that axis to the basis regardless of content, and the
fit-to-content step never modifies that axis; but `layoutTree` on a node
with a flex parent preserves the current (parent-imposed) size on that axis,
which need not equal the basis. -/
theorem fixedBasis_stability (env : Env) (c : Config) (s : St) :
    (c.mainAxisBasis ≠ 0 →
      (updateTreeLayout env c s).1.mainAxisSize = c.mainAxisBasis ∧
      (c.hasFlexParent = false →
        (layoutTree env c s).1.mainAxisSize = c.mainAxisBasis) ∧
      (fitMainAxisSizeToContents c s).1.mainAxisSize = s.mainAxisSize ∧
      (c.hasFlexParent = true →
        (layoutTree env c s).1.mainAxisSize = s.mainAxisSize)) ∧
    (c.crossAxisBasis ≠ 0 →
      (updateTreeLayout env c s).1.crossAxisSize = c.crossAxisBasis ∧
      (c.hasFlexParent = false →
        (layoutTree env c s).1.crossAxisSize = c.crossAxisBasis) ∧
      (fitCrossAxisSizeToContents c s).1.crossAxisSize = s.crossAxisSize ∧
      (c.hasFlexParent = true →
        (layoutTree env c s).1.crossAxisSize = s.crossAxisSize)) := by
  constructor
  · intro hm
    have hfix : isMainAxisFitToContents c = false := by
      simp [isMainAxisFitToContents, isWrapping, hasFixedMainAxisBasis,
        bne_iff_ne, hm]
    have hUp : (updateTreeLayout env c s).1.mainAxisSize = c.mainAxisBasis := by
      simp only [updateTreeLayout, resetDeferredLayout, setInitialAxisSizes]
      rw [layoutAxes_main_of_fixed env c _ hfix]
    refine ⟨hUp, ?_, ?_, ?_⟩
    · intro hp
      simpa [layoutTree, hp, updateItemCoords] using hUp
    · simp [fitMainAxisSizeToContents, hfix]
    · intro hp
      simp only [layoutTree, hp, if_pos, updateItemCoords,
        updateTreeLayoutWithCurrentAxes, resetDeferredLayout]
      rw [layoutAxes_main_of_fixed env c _ hfix]
  · intro hx
    have hfix : isCrossAxisFitToContents c = false := by
      simp [isCrossAxisFitToContents, hasFixedCrossAxisBasis, bne_iff_ne, hx]
    have hUp : (updateTreeLayout env c s).1.crossAxisSize
        = c.crossAxisBasis := by
      simp only [updateTreeLayout, resetDeferredLayout, setInitialAxisSizes]
      rw [layoutAxes_cross_of_fixed env c _ hfix]
    refine ⟨hUp, ?_, ?_, ?_⟩
    · intro hp
      simpa [layoutTree, hp, updateItemCoords] using hUp
    · simp [fitCrossAxisSizeToContents, hfix]
    · intro hp
      simp only [layoutTree, hp, if_pos, updateItemCoords,
        updateTreeLayoutWithCurrentAxes, resetDeferredLayout]
      rw [layoutAxes_cross_of_fixed env c _ hfix]

/-- A container with non-zero bases on both axes and no flex parent. -/
def cB : Config :=
  { wrap := true, horizontal := true, hasFlexParent := false
    mainAxisBasis := 5, crossAxisBasis := 6 }

/-- Witness for (amended) C8 at a concrete input. -/
theorem fixedBasis_stability_witness :
    (cB.mainAxisBasis ≠ 0 ∧ cB.crossAxisBasis ≠ 0 ∧
      cB.hasFlexParent = false) ∧
    ((updateTreeLayout env0 cB st0).1.mainAxisSize = cB.mainAxisBasis ∧
     (layoutTree env0 cB st0).1.mainAxisSize = cB.mainAxisBasis ∧
     (updateTreeLayout env0 cB st0).1.crossAxisSize = cB.crossAxisBasis ∧
     (layoutTree env0 cB st0).1.crossAxisSize = cB.crossAxisBasis) :=
  ⟨by decide,
   ((fixedBasis_stability env0 cB st0).1 (by decide)).1,
   ((fixedBasis_stability env0 cB st0).1 (by decide)).2.1 rfl,
   ((fixedBasis_stability env0 cB st0).2 (by decide)).1,
   ((fixedBasis_stability env0 cB st0).2 (by decide)).2.1 rfl⟩

/-! ### Non-negativity -/

/-- The collaborators' documented contract: content sizes and total
cross-axis sizes are sizes, hence non-negative. -/
def Env.Nonneg (env : Env) : Prop :=
  (∀ m, 0 ≤ env.mainAxisContentSize m) ∧
  (∀ m, 0 ≤ env.totalCrossAxisSize m)

/-- The configuration precondition: bases are non-negative (a negative basis
is an invalid configuration). -/
def Config.Nonneg (c : Config) : Prop :=
  0 ≤ c.mainAxisBasis ∧ 0 ≤ c.crossAxisBasis

/-- Both resolved axis sizes of a state are non-negative. -/
def St.SizesNonneg (s : St) : Prop :=
  0 ≤ s.mainAxisSize ∧ 0 ≤ s.crossAxisSize

theorem layoutMainAxis_main_cases (env : Env) (c : Config) (s : St) :
    (layoutMainAxis env c s).1.mainAxisSize
        = env.mainAxisContentSize s.mainAxisSize ∨
    (layoutMainAxis env c s).1.mainAxisSize = s.mainAxisSize := by
  simp only [layoutMainAxis, layoutLines, fitMainAxisSizeToContents]
  split_ifs <;> simp

theorem layoutCrossAxis_cross_cases (env : Env) (c : Config) (s : St) :
    (layoutCrossAxis env c s).1.crossAxisSize
        = env.totalCrossAxisSize s.linesMainSize ∨
    (layoutCrossAxis env c s).1.crossAxisSize = s.crossAxisSize := by
  simp only [layoutCrossAxis, fitCrossAxisSizeToContents]
  split_ifs <;> simp

theorem layoutCrossAxis_nonneg (env : Env) (c : Config) (s : St)
    (henv : Env.Nonneg env) (hs : St.SizesNonneg s) :
    St.SizesNonneg (layoutCrossAxis env c s).1 := by
  constructor
  · rw [(layoutCrossAxis_preserves env c s).1]
    exact hs.1
  · rcases layoutCrossAxis_cross_cases env c s with h | h <;> rw [h]
    · exact henv.2 _
    · exact hs.2

theorem layoutAxes_nonneg (env : Env) (c : Config) (s : St)
    (henv : Env.Nonneg env) (hs : St.SizesNonneg s) :
    St.SizesNonneg (layoutAxes env c s).1 := by
  simp only [layoutAxes]
  refine layoutCrossAxis_nonneg env c _ henv ⟨?_, ?_⟩
  · rcases layoutMainAxis_main_cases env c s with h | h <;> rw [h]
    · exact henv.1 _
    · exact hs.1
  · rw [(layoutMainAxis_fst_fields env c s).1]
    exact hs.2

/-- Claim C9: non-negativity.  Under the documented preconditions
(non-negative collaborator outputs, non-negative configured bases,
non-negative current sizes and a non-negative requested resize size), every
public operation — `layoutTree`, `updateTreeLayout`, `resizeMainAxis`,
`resizeCrossAxis`, `getAxisMinSize`, `deferLayout` — leaves both resolved
axis sizes non-negative. -/
theorem public_ops_nonneg (env : Env) (c : Config) (s : St) (sz : Int)
    (hor : Bool) (henv : Env.Nonneg env) (hc : Config.Nonneg c)
    (hs : St.SizesNonneg s) (hsz : 0 ≤ sz) :
    St.SizesNonneg (layoutTree env c s).1 ∧
    St.SizesNonneg (updateTreeLayout env c s).1 ∧
    St.SizesNonneg (resizeMainAxis env c sz s).1 ∧
    St.SizesNonneg (resizeCrossAxis env c sz s).1 ∧
    St.SizesNonneg (getAxisMinSize env c hor s).2.1 ∧
    St.SizesNonneg (deferLayout s).1 := by
  have hUp : St.SizesNonneg (updateTreeLayout env c s).1 := by
    simp only [updateTreeLayout, resetDeferredLayout, setInitialAxisSizes]
    exact layoutAxes_nonneg env c _ henv ⟨hc.1, hc.2⟩
  refine ⟨?_, hUp, ?_, ?_, ?_, hs⟩
  · cases hp : c.hasFlexParent <;>
      simp only [layoutTree, hp, if_pos, if_neg, Bool.false_eq_true,
        updateItemCoords, updateTreeLayoutWithCurrentAxes,
        resetDeferredLayout]
    · exact hUp
    · exact layoutAxes_nonneg env c _ henv hs
  · simp only [resizeMainAxis]
    split_ifs with h
    · exact layoutAxes_nonneg env c _ henv ⟨hsz, hs.2⟩
    · exact hs
  · simp only [resizeCrossAxis]
    split_ifs with h
    · exact layoutCrossAxis_nonneg env c _ henv ⟨hs.1, hsz⟩
    · exact hs
  · simp only [getAxisMinSize, getMainAxisMinSize, getCrossAxisMinSize,
      isLayoutDeferred]
    split_ifs with h1 h2 h2 <;> first | exact hUp | exact hs

/-- Witness for C9 at a concrete input. -/
theorem public_ops_nonneg_witness :
    (Env.Nonneg env0 ∧ Config.Nonneg c0 ∧ St.SizesNonneg st0 ∧
      (0 : Int) ≤ 2) ∧
    (St.SizesNonneg (layoutTree env0 c0 st0).1 ∧
     St.SizesNonneg (updateTreeLayout env0 c0 st0).1 ∧
     St.SizesNonneg (resizeMainAxis env0 c0 2 st0).1 ∧
     St.SizesNonneg (resizeCrossAxis env0 c0 2 st0).1 ∧
     St.SizesNonneg (getAxisMinSize env0 c0 true st0).2.1 ∧
     St.SizesNonneg (deferLayout st0).1) := by
  have he : Env.Nonneg env0 :=
    ⟨fun _ => show (0 : Int) ≤ 3 by decide, fun _ => show (0 : Int) ≤ 4 by decide⟩
  have hcc : Config.Nonneg c0 := ⟨by decide, by decide⟩
  have hss : St.SizesNonneg st0 := ⟨by decide, by decide⟩
  exact ⟨⟨he, hcc, hss, by decide⟩,
    public_ops_nonneg env0 c0 st0 2 true he hcc hss (by decide)⟩

/-- Claim C10: axis-orientation dispatch of `getAxisMinSize`.  The queried
orientation is compared with the container's own `horizontal` flag: when they
are equal the main-axis minimum is returned, otherwise the cross-axis
minimum — so a row container (`horizontal = true`) answers the main-axis
minimum for a horizontal query and a column container for a vertical one; on
a non-deferred container the returned value is the cached line-layouter
minimum for the selected axis. -/
theorem getAxisMinSize_dispatch (env : Env) (c : Config) (hor : Bool)
    (s : St) :
    (getAxisMinSize env c hor s
      = if c.horizontal == hor then getMainAxisMinSize env c s
        else getCrossAxisMinSize env c s) ∧
    (c.horizontal = hor →
      (getAxisMinSize env c hor s).1 = (getMainAxisMinSize env c s).1) ∧
    (c.horizontal ≠ hor →
      (getAxisMinSize env c hor s).1 = (getCrossAxisMinSize env c s).1) ∧
    (s.deferLayoutFlag = false →
      (getAxisMinSize env c hor s).1
        = if c.horizontal == hor then s.mainAxisMinSize
          else s.crossAxisMinSize) := by
  refine ⟨rfl, ?_, ?_, ?_⟩
  · intro h
    simp [getAxisMinSize, h]
  · intro h
    have hb : (c.horizontal == hor) = false := by
      simp [h]
    simp [getAxisMinSize, hb]
  · intro hd
    cases hh : (c.horizontal == hor) <;>
      simp [getAxisMinSize, getMainAxisMinSize, getCrossAxisMinSize,
        isLayoutDeferred, hd, hh]

/-- Witness for C10 at a concrete input (row container, horizontal query,
not deferred). -/
theorem getAxisMinSize_dispatch_witness :
    (c0.horizontal = true ∧ st0.deferLayoutFlag = false) ∧
    ((getAxisMinSize env0 c0 true st0).1
        = (getMainAxisMinSize env0 c0 st0).1 ∧
     (getAxisMinSize env0 c0 true st0).1
        = if c0.horizontal == true then st0.mainAxisMinSize
          else st0.crossAxisMinSize) :=
  ⟨⟨rfl, rfl⟩, (getAxisMinSize_dispatch env0 c0 true st0).2.1 rfl,
   (getAxisMinSize_dispatch env0 c0 true st0).2.2.2 rfl⟩

end FlexLayout
